import Mathlib

/-!
Shallow embedding of the drill / pipe / tile-map core of the Sats Miner game
(src/game.js, second revision: `class Level` at line 1926, `class Drill` at
line 2345, `class Enemy` at line 3005, `class PlayState` at line 3795,
`distancePointToSegment` at line 4154).

Conventions of the embedding:
* JavaScript numbers are embedded as exact rationals (ℚ); tile indices and
  direction components as integers (ℤ).
* `Math.hypot(dx, dy) <= c` is embedded as `0 ≤ c ∧ dx^2 + dy^2 ≤ c^2`, which
  is equivalent over the reals because `Math.hypot` is nonnegative
  (see `sqrtLeQ`).
* `Math.sqrt` / `Math.hypot` used as a *value* (only in the normalisation of
  the retraction slide and of the facing vector) is embedded via `Rat.sqrt`,
  which agrees with the real square root whenever the argument is a perfect
  rational square — in particular on all axis-aligned displacements, the only
  ones produced along the concrete executions used below.
* The source stores the facing as an angle `facingAngle = Math.atan2(dy, dx)`
  and only ever consumes `Math.cos/ Math.sin` of it; the embedding stores the
  pair `(cos facingAngle, sin facingAngle)` directly as `facingX`, `facingY`.
* Mutation is embedded as explicit state passing; methods returning a value
  and mutating (`trySetDirection`) return a pair.
* Sound-manager calls and rendering are presentation-only and are omitted;
  the pellet-collected callback is recorded as an event list.
-/

namespace SatsMiner

/-- A 2D point with rational coordinates (a JS `{x, y}` object). -/
structure Pt where
  x : ℚ
  y : ℚ
deriving DecidableEq, Repr

/-- Embeds the comparison `Math.hypot-or-sqrt(sq) <= bound` where `sq` is the
squared length: since the square root is nonnegative, `√sq ≤ bound` iff
`0 ≤ bound ∧ sq ≤ bound^2`. -/
def sqrtLeQ (sq bound : ℚ) : Bool :=
  decide (0 ≤ bound ∧ sq ≤ bound ^ 2)

/-- Embeds `Math.hypot(a, b)` as a value. Exact whenever `a = 0` or `b = 0`
(the only cases reachable in the concrete executions below); see module
comment. -/
def ratHypot (a b : ℚ) : ℚ :=
  Rat.sqrt (a * a + b * b)

/-- The state of `class Level` (game.js:1926). The fields `coinSpin`,
`enemyLaneData`/`enemyLaneInfo` (enemy spawn lanes) and the canvas handle are
rendering / spawning concerns not used by any claim and are omitted. -/
structure Level where
  tiles : List (List Char)
  width : ℤ
  height : ℤ
  tileSize : ℚ
  offsetX : ℚ
  offsetY : ℚ
  pelletCount : ℤ
  entryTile : ℤ × ℤ
  wellPosition : Pt
deriving DecidableEq, Repr

namespace Level

/-- Raw grid access `this.tiles[ty][tx]`: `none` plays the role of the JS
`undefined` read off the end of an array. -/
def rawAt (tiles : List (List Char)) (ty tx : ℤ) : Option Char :=
  if 0 ≤ ty ∧ 0 ≤ tx then
    (tiles.get? ty.toNat).bind fun row => row.get? tx.toNat
  else
    none

/-- `Level.getTile` (game.js:2015): `null` outside the grid bounds. -/
def getTile (l : Level) (tx ty : ℤ) : Option Char :=
  if ty < 0 ∨ ty ≥ l.height ∨ tx < 0 ∨ tx ≥ l.width then
    none
  else
    rawAt l.tiles ty tx

/-- `Level.tileToPixelCenter` (game.js:2009). -/
def tileToPixelCenter (l : Level) (tileX tileY : ℤ) : Pt :=
  ⟨l.offsetX + tileX * l.tileSize + l.tileSize / 2,
   l.offsetY + tileY * l.tileSize + l.tileSize / 2⟩

/-- `Level.pixelToTile` (game.js:2031): floor to tile indices, `null` outside
the grid. -/
def pixelToTile (l : Level) (x y : ℚ) : Option (ℤ × ℤ) :=
  let tx : ℤ := ⌊(x - l.offsetX) / l.tileSize⌋
  let ty : ℤ := ⌊(y - l.offsetY) / l.tileSize⌋
  if tx < 0 ∨ ty < 0 ∨ tx ≥ l.width ∨ ty ≥ l.height then
    none
  else
    some (tx, ty)

/-- `Level.isTunnelTile` (game.js:2040): open (".") or pellet ("O"). -/
def isTunnelTile (tile : Char) : Bool :=
  tile = '.' ∨ tile = 'O'

/-- `Level.removePelletAtTile` (game.js:2049): the mutating pellet collection;
returns the "collected" flag together with the updated level. -/
def removePelletAtTile (l : Level) (tx ty : ℤ) : Bool × Level :=
  if ty < 0 ∨ ty ≥ l.height ∨ tx < 0 ∨ tx ≥ l.width then
    (false, l)
  else if rawAt l.tiles ty tx = some 'O' then
    (true,
     { l with
        tiles := l.tiles.set ty.toNat
          (((l.tiles.get? ty.toNat).getD []).set tx.toNat '.'),
        pelletCount := max 0 (l.pelletCount - 1) })
  else
    (false, l)

/-- Number of pellet cells in the grid; the spec's invariant is
`pelletCount = countPellets`. -/
def countPellets (l : Level) : ℤ :=
  ((l.tiles.map fun row => row.count 'O').sum : ℕ)

/-- The hand-written level layout (game.js:1929, `rawMap`). -/
def rawMap : List (List Char) :=
  [ "##############################".toList,
    "..O....E....O....E....O.......".toList,
    "###.#######.#########.########".toList,
    "..O..E....O...E....O..E.......".toList,
    "######.#########.#######.#####".toList,
    "..E....O....E....O....E.......".toList,
    "#####.########.#######.#######".toList,
    "....O....E....O....E....O.....".toList,
    "########.#########.###########".toList,
    "..O...E....O...E....O...E.....".toList,
    "####.########.#####.#####.####".toList,
    "....E....O....E....O....E.....".toList,
    "#######.#######.#######.######".toList,
    "..E....O....E....O....E.......".toList,
    "#####.######.#######.#########".toList,
    "....O....E....O....E....O.....".toList,
    "##############################".toList ]

/-- `Level.findEntryTile` (game.js:1993): scan the top tunnel row outward from
the centre column; fallback `(1, topRow)`. The JS reads
`this.tiles[topRow][idx] !== "#"`, which is also satisfied by an (impossible)
out-of-row read, hence the comparison with `Option Char`. -/
def findEntryTile (tiles : List (List Char)) (width : ℤ) : ℤ × ℤ :=
  let topRow : ℤ := 1
  let centerCol : ℤ := width / 2
  (((List.range width.toNat).findSome? fun off =>
      let offset : ℤ := (off : ℤ)
      let left := centerCol - offset
      if left ≥ 0 ∧ ¬ Level.rawAt tiles topRow left = some '#' then
        some (left, topRow)
      else
        let right := centerCol + offset
        if right < width ∧ ¬ Level.rawAt tiles topRow right = some '#' then
          some (right, topRow)
        else
          none)).getD (1, topRow)

/-- The `Level` constructor (game.js:1927): fixed `rawMap`, tile size 32,
centred horizontally (`Math.floor`), pushed down by the vertical slack; counts
pellet cells 'O' and rewrites enemy-spawn markers 'E' to open tiles '.';
entry tile from `findEntryTile`; well hung `1.5 * tileSize` above the entry
tile centre. (Enemy lane extraction is omitted, see `Level`.) -/
def init (canvasWidth canvasHeight : ℚ) : Level :=
  let tileSize : ℚ := 32
  let tiles0 := rawMap
  let height : ℤ := (tiles0.length : ℤ)
  let width : ℤ := ((tiles0.headD []).length : ℤ)
  let gridWidth : ℚ := width * tileSize
  let gridHeight : ℚ := height * tileSize
  let offsetX : ℚ := max 0 (⌊(canvasWidth - gridWidth) / 2⌋ : ℤ)
  let offsetY : ℚ := max 0 (canvasHeight - gridHeight)
  let pelletCount : ℤ := ((tiles0.map fun row => row.count 'O').sum : ℕ)
  let tiles := tiles0.map fun row => row.map fun c => if c = 'E' then '.' else c
  let entryTile := findEntryTile tiles width
  let lvl : Level :=
    { tiles := tiles, width := width, height := height, tileSize := tileSize,
      offsetX := offsetX, offsetY := offsetY, pelletCount := pelletCount,
      entryTile := entryTile, wellPosition := ⟨0, 0⟩ }
  let entryCenter := lvl.tileToPixelCenter entryTile.1 entryTile.2
  { lvl with
      wellPosition := ⟨entryCenter.x, entryCenter.y - tileSize * (3 / 2)⟩ }

end Level

/-- `distancePointToSegment` (game.js:4154), squared: the source returns
`Math.hypot(dx, dy)`; every consumer only compares it against a nonnegative
threshold, so the embedding returns `dx^2 + dy^2` and consumers compare via
`sqrtLeQ`. The interpolation parameter `t` is exact rational arithmetic.
(The JS argument `by` is renamed `b_y`: `by` is a Lean keyword.) -/
def distancePointToSegmentSq (px py ax ay bx b_y : ℚ) : ℚ :=
  let abx := bx - ax
  let aby := b_y - ay
  let apx := px - ax
  let apy := py - ay
  let abLengthSq := abx * abx + aby * aby
  let t : ℚ := if abLengthSq > 0 then max 0 (min 1 ((apx * abx + apy * aby) / abLengthSq)) else 0
  let closestX := ax + abx * t
  let closestY := ay + aby * t
  let dx := px - closestX
  let dy := py - closestY
  dx * dx + dy * dy

/-- The state of `class Drill` (game.js:2345). `facingX`, `facingY` hold
`(cos facingAngle, sin facingAngle)` (see module comment); `collectedEvents`
records the `onPelletCollected(tileX, tileY)` callback invocations; `color`
and `outline` (pure rendering) are omitted. -/
structure Drill where
  level : Level
  wellPosition : Pt
  entryTile : ℤ × ℤ
  x : ℚ
  y : ℚ
  speed : ℚ
  radius : ℚ
  pipePoints : List Pt
  currentTileX : ℤ
  currentTileY : ℤ
  dirX : ℤ
  dirY : ℤ
  intentDirX : ℤ
  intentDirY : ℤ
  pendingDirX : ℤ
  pendingDirY : ℤ
  destinationTile : Option (ℤ × ℤ)
  isRetracting : Bool
  retractSpeed : ℚ
  facingX : ℚ
  facingY : ℚ
  lastForwardX : ℤ
  lastForwardY : ℤ
  tileTrail : List (ℤ × ℤ)
  animTime : ℚ
  isDocked : Bool
  retractHoldTime : ℚ
  bodyWidth : ℚ
  bodyLength : ℚ
  tipLength : ℚ
  bodyStartOffset : ℚ
  bodyEndOffset : ℚ
  tipEndOffset : ℚ
  headCollisionStartOffset : ℚ
  headCollisionRadius : ℚ
  collectedEvents : List (ℤ × ℤ)

namespace Drill

/-- The `Drill` constructor (game.js:2346): initial facing angle `π / 2`
embeds as the unit vector `(0, 1)`; `0.45 = 9/20` etc. are the exact decimal
literals of the source. -/
def init (level : Level) (wellPosition : Pt) (entryTile : ℤ × ℤ) : Drill :=
  let speed : ℚ := 200
  let radius : ℚ := level.tileSize * (45 / 100)
  let bodyWidth : ℚ := min (level.tileSize * (9 / 10)) (radius * (18 / 10))
  let bodyLength : ℚ := bodyWidth * (18 / 10)
  let tipLength : ℚ := bodyWidth * (8 / 10)
  let bodyStartOffset : ℚ := -bodyLength * (35 / 100)
  let bodyEndOffset : ℚ := bodyStartOffset + bodyLength
  { level := level
    wellPosition := wellPosition
    entryTile := entryTile
    x := wellPosition.x
    y := wellPosition.y
    speed := speed
    radius := radius
    pipePoints := [⟨wellPosition.x, wellPosition.y⟩]
    currentTileX := entryTile.1
    currentTileY := entryTile.2
    dirX := 0, dirY := 0
    intentDirX := 0, intentDirY := 0
    pendingDirX := 0, pendingDirY := 0
    destinationTile := none
    isRetracting := false
    retractSpeed := speed * 2
    facingX := 0, facingY := 1
    lastForwardX := 0, lastForwardY := 0
    tileTrail := []
    animTime := 0
    isDocked := true
    retractHoldTime := 0
    bodyWidth := bodyWidth
    bodyLength := bodyLength
    tipLength := tipLength
    bodyStartOffset := bodyStartOffset
    bodyEndOffset := bodyEndOffset
    tipEndOffset := bodyEndOffset + tipLength
    headCollisionStartOffset := bodyEndOffset - bodyWidth * (4 / 10)
    headCollisionRadius := bodyWidth * (45 / 100)
    collectedEvents := [] }

/-- `Drill.updateFacingFromVector` (game.js:2749): the source stores
`atan2(dy, dx)`; the embedding stores its cosine/sine, i.e. the normalised
vector (exact for the axis-unit directions the game issues). -/
def updateFacingFromVector (s : Drill) (dx dy : ℚ) : Drill :=
  if dx = 0 ∧ dy = 0 then s
  else
    let h := ratHypot dx dy
    { s with facingX := dx / h, facingY := dy / h }

/-- `Drill.setDirection` (game.js:2388). -/
def setDirection (s : Drill) (dx dy : ℤ) : Drill :=
  if s.isRetracting then s
  else
    { s with intentDirX := dx, intentDirY := dy, pendingDirX := dx, pendingDirY := dy }

/-- `Drill.updateHeadPipePoint` (game.js:2562). -/
def updateHeadPipePoint (s : Drill) : Drill :=
  let headPoint : Pt := ⟨s.x, s.y⟩
  match s.pipePoints with
  | [] => { s with pipePoints := [headPoint] }
  | [anchor] =>
      if anchor = headPoint then s
      else { s with pipePoints := [anchor, headPoint] }
  | _ => { s with pipePoints := s.pipePoints.dropLast ++ [headPoint] }

/-- `Drill.syncCurrentTile` (game.js:2579). -/
def syncCurrentTile (s : Drill) : Drill :=
  match s.level.pixelToTile s.x s.y with
  | some t => { s with currentTileX := t.1, currentTileY := t.2 }
  | none => s

/-- `Drill.startRetract` (game.js:2398): no-op when only the anchor point
remains; otherwise clears all direction state, zeroes the hold timer and
freezes the head into the pipe. (Sound calls omitted.) -/
def startRetract (s : Drill) : Drill :=
  if s.pipePoints.length ≤ 1 then s
  else
    ({ s with
        isRetracting := true
        retractHoldTime := 0
        dirX := 0, dirY := 0
        pendingDirX := 0, pendingDirY := 0
        intentDirX := 0, intentDirY := 0
        destinationTile := none
        lastForwardX := 0, lastForwardY := 0 }).updateHeadPipePoint

/-- `Drill.stopRetract` (game.js:2418). -/
def stopRetract (s : Drill) : Drill :=
  if ¬ s.isRetracting then s
  else (({ s with isRetracting := false }).updateHeadPipePoint).syncCurrentTile

/-- `Drill.getCurrentTileCenter` (game.js:2587): the `typeof` guard is dead in
the embedding (tile fields are always numbers), so this is the main branch. -/
def getCurrentTileCenter (s : Drill) : Pt :=
  s.level.tileToPixelCenter s.currentTileX s.currentTileY

/-- `Drill.snapToCenterIfClose` (game.js:2597): `Math.hypot(dx, dy) <= 1`
embedded via `sqrtLeQ`. -/
def snapToCenterIfClose (s : Drill) (center : Pt) : Drill :=
  let dx := center.x - s.x
  let dy := center.y - s.y
  if sqrtLeQ (dx * dx + dy * dy) 1 then
    let s := { s with x := center.x, y := center.y }
    if s.destinationTile = none then { s with dirX := 0, dirY := 0 } else s
  else s

/-- `this.tileTrail.push({x, y})` guarded by the last-element check used at
game.js:2539 and game.js:2627. -/
def pushTrailIfNew (trail : List (ℤ × ℤ)) (t : ℤ × ℤ) : List (ℤ × ℤ) :=
  match trail.getLast? with
  | none => trail ++ [t]
  | some l => if l.1 ≠ t.1 ∨ l.2 ≠ t.2 then trail ++ [t] else trail

/-- `Drill.handleInitialDrop` (game.js:2610): force the first move out of the
well downward when the player intends "down". -/
def handleInitialDrop (s : Drill) (center : Pt) : Drill :=
  if ¬ s.destinationTile = none ∨ s.dirX ≠ 0 ∨ s.dirY ≠ 0 then s
  else if ¬ (s.pendingDirY = 1 ∨ s.intentDirY = 1) then s
  else if center.y - s.y > 1 then
    let s := { s with
      dirX := 0, dirY := 1
      destinationTile := some (s.currentTileX, s.currentTileY)
      pendingDirX := 0, pendingDirY := 0 }
    let s := s.updateFacingFromVector 0 1
    let s := { s with lastForwardX := 0, lastForwardY := 1 }
    { s with tileTrail := pushTrailIfNew s.tileTrail (s.currentTileX, s.currentTileY) }
  else s

/-- `Drill.lockPerpendicularAxis` (game.js:2637). -/
def lockPerpendicularAxis (s : Drill) (center : Pt) : Drill :=
  if s.dirX ≠ 0 then { s with y := center.y }
  else if s.dirY ≠ 0 then { s with x := center.x }
  else s

/-- `Drill.trySetDirection` (game.js:2667): returns the "applied" flag and the
(possibly unchanged) state. (The accepting branch's sound call is omitted.) -/
def trySetDirection (s : Drill) (dx dy : ℤ) : Bool × Drill :=
  if dx = 0 ∧ dy = 0 then (false, s)
  else if ¬ s.destinationTile = none then (false, s)
  else if s.lastForwardX = -dx ∧ s.lastForwardY = -dy ∧
          (s.lastForwardX ≠ 0 ∨ s.lastForwardY ≠ 0) then (false, s)
  else
    let targetTileX := s.currentTileX + dx
    let targetTileY := s.currentTileY + dy
    match s.level.getTile targetTileX targetTileY with
    | none => (false, s)
    | some tile =>
        if ¬ Level.isTunnelTile tile then (false, s)
        else if s.tileTrail.any fun node => node.1 = targetTileX ∧ node.2 = targetTileY then
          (false, s)
        else
          let s := { s with
            dirX := dx, dirY := dy
            destinationTile := some (targetTileX, targetTileY) }
          let s := s.updateFacingFromVector dx dy
          (true, { s with lastForwardX := dx, lastForwardY := dy })

/-- `Drill.tryApplyPendingDirection` (game.js:2648). -/
def tryApplyPendingDirection (s : Drill) : Bool × Drill :=
  if s.pendingDirX = 0 ∧ s.pendingDirY = 0 then (false, s)
  else
    let (applied, s) := s.trySetDirection s.pendingDirX s.pendingDirY
    if applied then (applied, { s with pendingDirX := 0, pendingDirY := 0 })
    else (applied, s)

/-- `Drill.tryContinueForward` (game.js:2660). -/
def tryContinueForward (s : Drill) : Bool × Drill :=
  if s.intentDirX = 0 ∧ s.intentDirY = 0 then (false, s)
  else s.trySetDirection s.intentDirX s.intentDirY

/-- `Drill.advanceTowardDestination` (game.js:2704): arrival (snap to the
destination centre, commit the tile, chain into the next direction) or an
axis-locked step of `speed * dt`. The `continuing` flag only gates a sound
call and is dropped. -/
def advanceTowardDestination (s : Drill) (dt : ℚ) : Drill :=
  match s.destinationTile with
  | none => s
  | some dest =>
      let destCenter := s.level.tileToPixelCenter dest.1 dest.2
      let moveDist := s.speed * dt
      let dx := destCenter.x - s.x
      let dy := destCenter.y - s.y
      if sqrtLeQ (dx * dx + dy * dy) moveDist then
        let s := { s with
          x := destCenter.x, y := destCenter.y
          currentTileX := dest.1, currentTileY := dest.2
          destinationTile := none
          dirX := 0, dirY := 0 }
        let (applied, s) := s.tryApplyPendingDirection
        if applied then s else (s.tryContinueForward).2
      else if s.dirX ≠ 0 then
        { s with
          x := s.x + s.dirX * moveDist
          y := (s.level.tileToPixelCenter s.currentTileX s.currentTileY).y }
      else if s.dirY ≠ 0 then
        { s with
          y := s.y + s.dirY * moveDist
          x := (s.level.tileToPixelCenter s.currentTileX s.currentTileY).x }
      else s

/-- `Drill.trackPipeProgress` (game.js:2523). -/
def trackPipeProgress (s : Drill) : Drill :=
  match s.level.pixelToTile s.x s.y with
  | none => s.updateHeadPipePoint
  | some t =>
      if t.1 = s.currentTileX ∧ t.2 = s.currentTileY then s.updateHeadPipePoint
      else
        let s := { s with currentTileX := t.1, currentTileY := t.2 }
        let center := s.level.tileToPixelCenter t.1 t.2
        let s := { s with tileTrail := pushTrailIfNew s.tileTrail (t.1, t.2) }
        match s.pipePoints with
        | [] => { s with pipePoints := [center, ⟨s.x, s.y⟩] }
        | [anchor] => { s with pipePoints := [anchor, center, ⟨s.x, s.y⟩] }
        | _ => { s with pipePoints := s.pipePoints.dropLast ++ [center, ⟨s.x, s.y⟩] }

/-- `Drill.checkPelletCollection` (game.js:2512): collects the pellet under
the head, recording the callback invocation in `collectedEvents`. -/
def checkPelletCollection (s : Drill) : Drill :=
  match s.level.pixelToTile s.x s.y with
  | none => s
  | some t =>
      let (collected, lvl) := s.level.removePelletAtTile t.1 t.2
      if collected then
        { s with level := lvl, collectedEvents := s.collectedEvents ++ [(t.1, t.2)] }
      else
        { s with level := lvl }

/-- The retract step distance `maxStep` computed at game.js:2481-2483:
`rapidBoost = min(1, retractHoldTime)`,
`accelerationMultiplier = 1 + rapidBoost^2 * 15`,
`maxStep = retractSpeed * accelerationMultiplier * dt`. -/
def retractMaxStep (s : Drill) (dt : ℚ) : ℚ :=
  let rapidBoost := min 1 s.retractHoldTime
  let accelerationMultiplier := 1 + rapidBoost * rapidBoost * 15
  s.retractSpeed * accelerationMultiplier * dt

/-- `Drill.retractAlongPipe` (game.js:2459): pop the last waypoint when it is
within `maxStep`, otherwise slide toward it; fully docking (one point left)
resets tile state, trail and the hold timer and stops retraction. The slide's
`(dx / dist) * maxStep` uses `ratHypot` (exact on the axis-aligned
displacements that occur along the pipe). -/
def retractAlongPipe (s : Drill) (dt : ℚ) : Drill :=
  if s.pipePoints.length ≤ 1 then
    let anchor := s.pipePoints.headD ⟨s.x, s.y⟩
    let s := { s with x := anchor.x, y := anchor.y }
    let s := s.updateHeadPipePoint
    let s := s.syncCurrentTile
    { s with
        currentTileX := s.entryTile.1, currentTileY := s.entryTile.2
        lastForwardX := 0, lastForwardY := 0
        tileTrail := []
        isRetracting := false
        retractHoldTime := 0 }
  else
    let target := s.pipePoints.getD (s.pipePoints.length - 2) ⟨s.x, s.y⟩
    let dx := target.x - s.x
    let dy := target.y - s.y
    let maxStep := s.retractMaxStep dt
    if sqrtLeQ (dx * dx + dy * dy) maxStep then
      let s := { s with
          x := target.x, y := target.y
          pipePoints := s.pipePoints.dropLast
          tileTrail := s.tileTrail.dropLast }
      let s := s.updateHeadPipePoint
      let s := s.syncCurrentTile
      if s.pipePoints.length = 1 then
        { s with
            isRetracting := false
            retractHoldTime := 0
            currentTileX := s.entryTile.1, currentTileY := s.entryTile.2
            lastForwardX := 0, lastForwardY := 0
            tileTrail := [] }
      else s
    else
      let dist := ratHypot dx dy
      let s := { s with
          x := s.x + dx / dist * maxStep
          y := s.y + dy / dist * maxStep }
      (s.updateHeadPipePoint).syncCurrentTile

/-- The docked test recomputed by `Drill.refreshDockedState` (game.js:2780). -/
def dockedNow (s : Drill) : Bool :=
  let atEntry := s.currentTileX = s.entryTile.1 ∧ s.currentTileY = s.entryTile.2
  let noPipeLaid := s.tileTrail.length = 0 ∧ s.pipePoints.length ≤ 1
  ¬ s.isRetracting ∧ s.destinationTile = none ∧ atEntry ∧ noPipeLaid

/-- `Drill.refreshDockedState` (game.js:2780). -/
def refreshDockedState (s : Drill) : Drill :=
  { s with isDocked := s.dockedNow }

/-- Lines 2445-2447 of `Drill.update`:
`if (!this.tryApplyPendingDirection()) { this.tryContinueForward(); }`. -/
def directionPhase (s : Drill) : Drill :=
  match s.tryApplyPendingDirection with
  | (true, s) => s
  | (false, s) => (s.tryContinueForward).2

/-- The non-retracting tail of `Drill.update` (game.js:2436-2457), after the
hold-timer reset and the docked-state refresh: snap/initial-drop/axis-lock
against the current tile centre, the direction phase when idle, then
advance + pipe tracking + pellet collection when a destination is set.
(`center` is always truthy in the source, so the `if (center)` guards are
taken.) -/
def updateForward (s : Drill) (dt : ℚ) : Drill :=
  let center := s.getCurrentTileCenter
  let s := s.snapToCenterIfClose center
  let s := s.handleInitialDrop center
  let s := s.lockPerpendicularAxis center
  let s := if s.destinationTile = none then s.directionPhase else s
  if s.destinationTile = none then s
  else ((s.advanceTowardDestination dt).trackPipeProgress).checkPelletCollection

/-- `Drill.update` (game.js:2427). -/
def update (s : Drill) (dt : ℚ) : Drill :=
  let s := { s with animTime := s.animTime + dt }
  if s.isRetracting then
    (({ s with retractHoldTime := s.retractHoldTime + dt }).retractAlongPipe dt).refreshDockedState
  else
    (({ s with retractHoldTime := 0 }).refreshDockedState).updateForward dt

/-- `Drill.collidesWithHead` (game.js:2756): refreshes the docked state, rules
out docked drills and enemies outside the grid or off the drill's tile row,
then tests the head circle and the elongated body segment. Only the boolean
result is returned; the only source mutation is the recomputed `isDocked`
field (see `refreshDockedState`). -/
def collidesWithHead (s : Drill) (enemyX enemyY enemyRadius : ℚ) : Bool :=
  let s := s.refreshDockedState
  if s.isDocked then false
  else
    match s.level.pixelToTile enemyX enemyY with
    | none => false
    | some enemyTile =>
        if enemyTile.2 ≠ s.currentTileY then false
        else
          let centerDistSq := (enemyX - s.x) * (enemyX - s.x) + (enemyY - s.y) * (enemyY - s.y)
          if sqrtLeQ centerDistSq (enemyRadius + s.radius) then true
          else
            let ux := s.facingX
            let uy := s.facingY
            let startX := s.x + ux * s.headCollisionStartOffset
            let startY := s.y + uy * s.headCollisionStartOffset
            let endX := s.x + ux * s.tipEndOffset
            let endY := s.y + uy * s.tipEndOffset
            sqrtLeQ (distancePointToSegmentSq enemyX enemyY startX startY endX endY)
              (enemyRadius + s.headCollisionRadius)

end Drill

/-- The drill's public operation surface (spec §6): the four directional
signals feed `setDirection` with unit axis vectors, Space press/release feed
`startRetract` / `stopRetract` (game.js:3899-3931), and the frame loop feeds
`update(dt)`. -/
inductive DrillOp where
  | setDirection (dx dy : ℤ)
  | startRetract
  | stopRetract
  | update (dt : ℚ)

/-- Apply one public operation to a drill state. -/
def applyOp (s : Drill) : DrillOp → Drill
  | .setDirection dx dy => s.setDirection dx dy
  | .startRetract => s.startRetract
  | .stopRetract => s.stopRetract
  | .update dt => s.update dt

/-- Apply a sequence of public operations. -/
def runOps (s : Drill) (ops : List DrillOp) : Drill :=
  ops.foldl applyOp s

/-- The level exactly as `PlayState` constructs it (game.js:3798) on a
960x640 canvas: the 30x17 grid of 32px tiles occupies 960x544, so
`offsetX = 0`, `offsetY = 96`. Any larger canvas merely translates every
pixel quantity. -/
def gameLevel : Level :=
  Level.init 960 640

/-- The freshly created drill of `PlayState.createDrill` (game.js:3999):
`new Drill(level, level.getWellPosition(), level.getEntryTile(), callback)`. -/
def gameDrill : Drill :=
  Drill.init gameLevel gameLevel.wellPosition gameLevel.entryTile

/-- `true` iff every pair of consecutive pipe points agrees in `x` or in `y`,
i.e. the polyline has axis-aligned segments only (spec §3, PathPipe
invariant). -/
def axisAlignedPipe : List Pt → Bool
  | a :: b :: rest => (a.x = b.x ∨ a.y = b.y) ∧ axisAlignedPipe (b :: rest)
  | _ => true

/-- The enemy state consumed and mutated by the interaction resolver
(`class Enemy`, game.js:3005): `active`, position, radius, variant tag and
the respawn countdown. Movement-only fields (`spawnPoint`, `direction`,
`speed`, `canvasWidth`, `spawnMargin`, `animTime`) are not read by
`handleEnemyInteractions` / `enemyHitsPipe` and are omitted. -/
structure EnemyE where
  active : Bool
  x : ℚ
  y : ℚ
  radius : ℚ
  type : String
  respawnTimer : ℚ
deriving DecidableEq, Repr

/-- `Enemy.handleDestroyed` (game.js:3082) = `scheduleRespawn(5 + random*2)`:
deactivate and schedule the respawn after `delay`, the drawn random value. -/
def handleDestroyed (e : EnemyE) (delay : ℚ) : EnemyE :=
  { e with active := false, respawnTimer := delay }

/-- `PlayState.enemyHitsPipe` (game.js:4042): minimum distance from the enemy
to every consecutive pipe segment against `enemy.radius + pipeRadius`
(`pipeRadius = 4`), embedded with squared distances via `sqrtLeQ`. -/
def enemyHitsPipe (pipePoints : List Pt) (e : EnemyE) : Bool :=
  if pipePoints.length < 2 then false
  else
    let threshold := e.radius + 4
    (pipePoints.zip pipePoints.tail).any fun ab =>
      sqrtLeQ (distancePointToSegmentSq e.x e.y ab.1.x ab.1.y ab.2.x ab.2.y) threshold

/-- `PlayState.handleEnemyInteractions` (game.js:4016) as a pure fold over the
enemy list: returns the life-lost flag (the source then calls
`handleLifeLost()` and returns, i.e. stops processing), the score gained
(`+10` per destroyed enemy) and the enemy list with destroyed enemies
rescheduled. `delays` is the stream of `5 + Math.random() * 2` draws consumed
by `handleDestroyed`. On life loss the remaining enemies are returned
untouched, mirroring the early `return true`. -/
def resolveEnemies (d : Drill) (delays : List ℚ) : List EnemyE → Bool × ℕ × List EnemyE
  | [] => (false, 0, [])
  | e :: rest =>
      if ¬ e.active then
        let r := resolveEnemies d delays rest
        (r.1, r.2.1, e :: r.2.2)
      else if d.collidesWithHead e.x e.y e.radius then
        if e.type = "02" then (true, 0, e :: rest)
        else
          let r := resolveEnemies d delays.tail rest
          (r.1, r.2.1 + 10, handleDestroyed e (delays.headD 5) :: r.2.2)
      else if enemyHitsPipe d.pipePoints e then (true, 0, e :: rest)
      else
        let r := resolveEnemies d delays rest
        (r.1, r.2.1, e :: r.2.2)

/-! ### Helper lemmas about the embedded operations -/

namespace Drill

theorem updateHeadPipePoint_shape (s : Drill) :
    ∃ pts, s.updateHeadPipePoint = { s with pipePoints := pts } := by
  unfold updateHeadPipePoint
  rcases s.pipePoints with _ | ⟨a, _ | ⟨b, rest⟩⟩
  · exact ⟨_, rfl⟩
  · dsimp only
    split
    · exact ⟨s.pipePoints, rfl⟩
    · exact ⟨_, rfl⟩
  · exact ⟨_, rfl⟩

theorem syncCurrentTile_shape (s : Drill) :
    ∃ cx cy, s.syncCurrentTile = { s with currentTileX := cx, currentTileY := cy } := by
  unfold syncCurrentTile
  rcases s.level.pixelToTile s.x s.y with _ | t
  · exact ⟨s.currentTileX, s.currentTileY, rfl⟩
  · exact ⟨t.1, t.2, rfl⟩

theorem updateFacingFromVector_shape (s : Drill) (dx dy : ℚ) :
    ∃ fx fy, s.updateFacingFromVector dx dy = { s with facingX := fx, facingY := fy } := by
  unfold updateFacingFromVector
  split
  · exact ⟨s.facingX, s.facingY, rfl⟩
  · exact ⟨_, _, rfl⟩

@[simp] theorem updateHeadPipePoint_isRetracting (s : Drill) :
    s.updateHeadPipePoint.isRetracting = s.isRetracting := by
  obtain ⟨pts, h⟩ := s.updateHeadPipePoint_shape; rw [h]

@[simp] theorem updateHeadPipePoint_retractHoldTime (s : Drill) :
    s.updateHeadPipePoint.retractHoldTime = s.retractHoldTime := by
  obtain ⟨pts, h⟩ := s.updateHeadPipePoint_shape; rw [h]

@[simp] theorem updateHeadPipePoint_tileTrail (s : Drill) :
    s.updateHeadPipePoint.tileTrail = s.tileTrail := by
  obtain ⟨pts, h⟩ := s.updateHeadPipePoint_shape; rw [h]

@[simp] theorem updateHeadPipePoint_entryTile (s : Drill) :
    s.updateHeadPipePoint.entryTile = s.entryTile := by
  obtain ⟨pts, h⟩ := s.updateHeadPipePoint_shape; rw [h]

@[simp] theorem syncCurrentTile_isRetracting (s : Drill) :
    s.syncCurrentTile.isRetracting = s.isRetracting := by
  obtain ⟨cx, cy, h⟩ := s.syncCurrentTile_shape; rw [h]

@[simp] theorem syncCurrentTile_retractHoldTime (s : Drill) :
    s.syncCurrentTile.retractHoldTime = s.retractHoldTime := by
  obtain ⟨cx, cy, h⟩ := s.syncCurrentTile_shape; rw [h]

@[simp] theorem syncCurrentTile_tileTrail (s : Drill) :
    s.syncCurrentTile.tileTrail = s.tileTrail := by
  obtain ⟨cx, cy, h⟩ := s.syncCurrentTile_shape; rw [h]

@[simp] theorem syncCurrentTile_entryTile (s : Drill) :
    s.syncCurrentTile.entryTile = s.entryTile := by
  obtain ⟨cx, cy, h⟩ := s.syncCurrentTile_shape; rw [h]

@[simp] theorem syncCurrentTile_pipePoints (s : Drill) :
    s.syncCurrentTile.pipePoints = s.pipePoints := by
  obtain ⟨cx, cy, h⟩ := s.syncCurrentTile_shape; rw [h]

/-- With at least two pipe points, `updateHeadPipePoint` rewrites the final
point to the head position. -/
theorem updateHeadPipePoint_pipePoints_of_two_le (s : Drill)
    (h : 2 ≤ s.pipePoints.length) :
    s.updateHeadPipePoint.pipePoints = s.pipePoints.dropLast ++ [⟨s.x, s.y⟩] := by
  unfold updateHeadPipePoint
  rcases hp : s.pipePoints with _ | ⟨a, _ | ⟨b, rest⟩⟩
  · rw [hp] at h; simp at h
  · rw [hp] at h; simp at h
  · simp

theorem updateHeadPipePoint_length_of_two_le (s : Drill)
    (h : 2 ≤ s.pipePoints.length) :
    s.updateHeadPipePoint.pipePoints.length = s.pipePoints.length := by
  rw [s.updateHeadPipePoint_pipePoints_of_two_le h]
  rw [List.length_append, List.length_dropLast]
  simp
  omega

@[simp] theorem refreshDockedState_retractHoldTime (s : Drill) :
    s.refreshDockedState.retractHoldTime = s.retractHoldTime := rfl

@[simp] theorem snapToCenterIfClose_retractHoldTime (s : Drill) (c : Pt) :
    (s.snapToCenterIfClose c).retractHoldTime = s.retractHoldTime := by
  unfold snapToCenterIfClose
  dsimp only
  split
  · split <;> rfl
  · rfl

@[simp] theorem updateFacingFromVector_retractHoldTime (s : Drill) (dx dy : ℚ) :
    (s.updateFacingFromVector dx dy).retractHoldTime = s.retractHoldTime := by
  obtain ⟨fx, fy, hf⟩ := s.updateFacingFromVector_shape dx dy; rw [hf]

@[simp] theorem updateFacingFromVector_destinationTile (s : Drill) (dx dy : ℚ) :
    (s.updateFacingFromVector dx dy).destinationTile = s.destinationTile := by
  obtain ⟨fx, fy, hf⟩ := s.updateFacingFromVector_shape dx dy; rw [hf]

@[simp] theorem updateFacingFromVector_lastForwardX (s : Drill) (dx dy : ℚ) :
    (s.updateFacingFromVector dx dy).lastForwardX = s.lastForwardX := by
  obtain ⟨fx, fy, hf⟩ := s.updateFacingFromVector_shape dx dy; rw [hf]

@[simp] theorem updateFacingFromVector_lastForwardY (s : Drill) (dx dy : ℚ) :
    (s.updateFacingFromVector dx dy).lastForwardY = s.lastForwardY := by
  obtain ⟨fx, fy, hf⟩ := s.updateFacingFromVector_shape dx dy; rw [hf]

@[simp] theorem updateFacingFromVector_dirX (s : Drill) (dx dy : ℚ) :
    (s.updateFacingFromVector dx dy).dirX = s.dirX := by
  obtain ⟨fx, fy, hf⟩ := s.updateFacingFromVector_shape dx dy; rw [hf]

@[simp] theorem updateFacingFromVector_dirY (s : Drill) (dx dy : ℚ) :
    (s.updateFacingFromVector dx dy).dirY = s.dirY := by
  obtain ⟨fx, fy, hf⟩ := s.updateFacingFromVector_shape dx dy; rw [hf]

@[simp] theorem handleInitialDrop_retractHoldTime (s : Drill) (c : Pt) :
    (s.handleInitialDrop c).retractHoldTime = s.retractHoldTime := by
  unfold handleInitialDrop
  split
  · rfl
  · split
    · rfl
    · split
      · simp
      · rfl

@[simp] theorem lockPerpendicularAxis_retractHoldTime (s : Drill) (c : Pt) :
    (s.lockPerpendicularAxis c).retractHoldTime = s.retractHoldTime := by
  unfold lockPerpendicularAxis
  split
  · rfl
  · split <;> rfl

@[simp] theorem trySetDirection_retractHoldTime (s : Drill) (dx dy : ℤ) :
    (s.trySetDirection dx dy).2.retractHoldTime = s.retractHoldTime := by
  unfold trySetDirection
  split
  · rfl
  split
  · rfl
  split
  · rfl
  dsimp only
  rcases s.level.getTile (s.currentTileX + dx) (s.currentTileY + dy) with _ | tile
  · rfl
  dsimp only
  split
  · rfl
  split
  · rfl
  simp

@[simp] theorem tryApplyPendingDirection_retractHoldTime (s : Drill) :
    s.tryApplyPendingDirection.2.retractHoldTime = s.retractHoldTime := by
  unfold tryApplyPendingDirection
  dsimp only
  split
  · rfl
  · split
    · simp
    · simp

@[simp] theorem tryContinueForward_retractHoldTime (s : Drill) :
    s.tryContinueForward.2.retractHoldTime = s.retractHoldTime := by
  unfold tryContinueForward
  split
  · rfl
  · simp

@[simp] theorem advanceTowardDestination_retractHoldTime (s : Drill) (dt : ℚ) :
    (s.advanceTowardDestination dt).retractHoldTime = s.retractHoldTime := by
  unfold advanceTowardDestination
  rcases s.destinationTile with _ | dest
  · rfl
  · dsimp only
    split
    · split
      · simp
      · simp
    · split
      · rfl
      · split <;> rfl

@[simp] theorem trackPipeProgress_retractHoldTime (s : Drill) :
    s.trackPipeProgress.retractHoldTime = s.retractHoldTime := by
  unfold trackPipeProgress
  rcases s.level.pixelToTile s.x s.y with _ | t
  · simp
  · dsimp only
    split
    · simp
    · split <;> rfl

@[simp] theorem checkPelletCollection_retractHoldTime (s : Drill) :
    s.checkPelletCollection.retractHoldTime = s.retractHoldTime := by
  unfold checkPelletCollection
  rcases s.level.pixelToTile s.x s.y with _ | t
  · rfl
  · dsimp only
    split <;> rfl

@[simp] theorem directionPhase_retractHoldTime (s : Drill) :
    s.directionPhase.retractHoldTime = s.retractHoldTime := by
  unfold directionPhase
  rcases h : s.tryApplyPendingDirection with ⟨_ | _, s'⟩
  · dsimp only
    have : s'.retractHoldTime = s.retractHoldTime := by
      have := s.tryApplyPendingDirection_retractHoldTime
      rw [h] at this; exact this
    simp [this]
  · dsimp only
    have := s.tryApplyPendingDirection_retractHoldTime
    rw [h] at this; exact this

@[simp] theorem updateForward_retractHoldTime (s : Drill) (dt : ℚ) :
    (s.updateForward dt).retractHoldTime = s.retractHoldTime := by
  unfold updateForward
  dsimp only
  set u := ((s.snapToCenterIfClose s.getCurrentTileCenter).handleInitialDrop
      s.getCurrentTileCenter).lockPerpendicularAxis s.getCurrentTileCenter with hu
  by_cases hin : u.destinationTile = none
  · rw [if_pos hin]
    split <;> simp [hu]
  · rw [if_neg hin, if_neg hin]
    simp [hu]

/-- A non-retracting `update` tick zeroes the hold timer at its start and
nothing later in the tick writes it again. -/
theorem update_retractHoldTime_of_not_retracting (s : Drill) (dt : ℚ)
    (h : s.isRetracting = false) : (s.update dt).retractHoldTime = 0 := by
  unfold update
  dsimp only
  rw [h]
  simp

end Drill

/-! ### Concrete states used as witnesses -/

/-- A mid-retraction state: two pipe points left, head frozen on the pipe one
tile below the anchor. -/
def retractTestState : Drill :=
  { gameDrill with
      isRetracting := true
      x := 496, y := 112
      currentTileX := 15, currentTileY := 1
      pipePoints := [⟨496, 96⟩, ⟨496, 112⟩]
      tileTrail := [(15, 1), (15, 0)] }

/-- A mid-move crossing state: the head has just advanced to `(496, 136)`,
inside tile `(15, 1)`, while the recorded current tile is still `(15, 0)` —
the state `trackPipeProgress` sees right after `advanceTowardDestination`
during the second tick of the straight downward run. -/
def crossingTestState : Drill :=
  { gameDrill with
      x := 496, y := 136
      currentTileX := 15, currentTileY := 0
      dirX := 0, dirY := 1
      destinationTile := some (15, 1)
      lastForwardX := 0, lastForwardY := 1
      pipePoints := [⟨496, 96⟩, ⟨496, 112⟩, ⟨496, 116⟩]
      tileTrail := [(15, 1), (15, 0)] }

/-- A drill one tile into the maze: head at the centre of tile `(15, 2)` with
a two-point vertical pipe — not docked, so head collisions are live. -/
def c7Drill : Drill :=
  { gameDrill with
      x := 496, y := 176
      currentTileX := 15, currentTileY := 2
      pipePoints := [⟨496, 96⟩, ⟨496, 176⟩]
      tileTrail := [(15, 1), (15, 2)] }

/-- A hazardous (type "02") enemy sitting exactly on `c7Drill`'s head. -/
def wormEnemy : EnemyE :=
  { active := true, x := 496, y := 176, radius := 8, type := "02", respawnTimer := 0 }

/-- A destructible (type "01") enemy sitting exactly on `c7Drill`'s head. -/
def spiderEnemy : EnemyE :=
  { active := true, x := 496, y := 176, radius := 8, type := "01", respawnTimer := 0 }

/-! ### The claims -/

/-- Claim C4: during retraction, once exactly one pipe point (the anchor)
remains, retraction stops automatically (`isRetracting` flips to false), the
drill's current tile resets to the entry tile, and the visited-tile trail is
cleared (`Drill.retractAlongPipe`, game.js:2459). -/
theorem c4_retraction_terminal (s : Drill) (dt : ℚ) (hret : s.isRetracting = true)
    (h1 : (s.retractAlongPipe dt).pipePoints.length = 1) :
    (s.retractAlongPipe dt).isRetracting = false ∧
    (s.retractAlongPipe dt).currentTileX = s.entryTile.1 ∧
    (s.retractAlongPipe dt).currentTileY = s.entryTile.2 ∧
    (s.retractAlongPipe dt).tileTrail = [] := by
  revert h1
  unfold Drill.retractAlongPipe
  dsimp only
  split
  · intro h1
    refine ⟨rfl, ?_, ?_, rfl⟩ <;> simp
  · split
    · split
      · intro h1
        refine ⟨rfl, ?_, ?_, rfl⟩ <;> simp
      · intro h1
        exact absurd h1 (by assumption)
    · intro h1
      exfalso
      rename_i hlen hstep
      have h2 : 2 ≤ s.pipePoints.length := by omega
      rw [Drill.syncCurrentTile_pipePoints,
        Drill.updateHeadPipePoint_length_of_two_le _ (by exact h2)] at h1
      dsimp only at h1
      omega

unseal Rat.add Rat.mul Rat.sub Rat.inv in
/-- Witness for C4 at a concrete mid-retraction state: one popping tick
leaves exactly the anchor, and the terminal resets fire. -/
theorem c4_witness :
    retractTestState.isRetracting = true ∧
    (retractTestState.retractAlongPipe (1/10)).pipePoints.length = 1 ∧
    ((retractTestState.retractAlongPipe (1/10)).isRetracting = false ∧
     (retractTestState.retractAlongPipe (1/10)).currentTileX = retractTestState.entryTile.1 ∧
     (retractTestState.retractAlongPipe (1/10)).currentTileY = retractTestState.entryTile.2 ∧
     (retractTestState.retractAlongPipe (1/10)).tileTrail = []) :=
  ⟨rfl, by decide, c4_retraction_terminal retractTestState (1/10) rfl (by decide)⟩

/-- Claim C5: the retraction step distance (the `maxStep` of
`Drill.retractAlongPipe`, see `Drill.retractMaxStep`, game.js:2481-2483) is
monotone in the continuously-held retract time: for held times
`t1 < t2`, both below the acceleration bound (the 1-second clamp of
`rapidBoost`), and equal `dt`, the step at `t2` is at least the step at `t1`;
the base speed is scaled by `1 + min(1, t)^2 * 15`. -/
theorem c5_retract_accel_mono (s : Drill) (t1 t2 dt : ℚ)
    (hspeed : 0 ≤ s.retractSpeed) (hdt : 0 ≤ dt)
    (h0 : 0 ≤ t1) (h12 : t1 < t2) (hb : t2 ≤ 1) :
    ({ s with retractHoldTime := t1 } : Drill).retractMaxStep dt ≤
      ({ s with retractHoldTime := t2 } : Drill).retractMaxStep dt := by
  unfold Drill.retractMaxStep
  dsimp only
  rw [min_eq_right hb, min_eq_right ((le_of_lt h12).trans hb)]
  have key : t1 * t1 ≤ t2 * t2 := by nlinarith
  nlinarith [mul_nonneg (mul_nonneg hspeed hdt) (sub_nonneg.mpr key)]

unseal Rat.add Rat.mul Rat.sub Rat.inv in
/-- Witness for C5: the game drill (base retract speed 400), held times
1/10 < 1/2, `dt = 1/10`. -/
theorem c5_witness :
    (0 ≤ gameDrill.retractSpeed ∧ (0:ℚ) ≤ 1/10 ∧ (0:ℚ) ≤ 1/10 ∧
      (1:ℚ)/10 < 1/2 ∧ (1:ℚ)/2 ≤ 1) ∧
    ({ gameDrill with retractHoldTime := 1/10 } : Drill).retractMaxStep (1/10) ≤
      ({ gameDrill with retractHoldTime := 1/2 } : Drill).retractMaxStep (1/10) :=
  ⟨⟨by decide, by decide, by decide, by decide, by decide⟩,
   c5_retract_accel_mono gameDrill (1/10) (1/2) (1/10)
     (by decide) (by decide) (by decide) (by decide) (by decide)⟩

unseal Rat.add Rat.mul Rat.sub Rat.inv in
/-- Counterexample to claim C6 as stated: along a real run, after extending
one tile and retracting for a 0.1s tick, the drill has accumulated held-time
1/10 with two pipe points left (still mid-pipe, not docked); releasing
retract keeps the 1/10, but re-pressing retract (`startRetract`) zeroes it
instead of preserving it — so the held-time does *not* reset "only when fully
docked", and a release/re-press cycle does *not* preserve the accumulated
held-time. -/
theorem c6_counterexample :
    (runOps gameDrill [.setDirection 0 1, .update (1/10), .startRetract, .update (1/10),
        .stopRetract]).retractHoldTime = 1/10 ∧
    (runOps gameDrill [.setDirection 0 1, .update (1/10), .startRetract, .update (1/10),
        .stopRetract]).pipePoints.length = 2 ∧
    (runOps gameDrill [.setDirection 0 1, .update (1/10), .startRetract, .update (1/10),
        .stopRetract]).isRetracting = false ∧
    (runOps gameDrill [.setDirection 0 1, .update (1/10), .startRetract, .update (1/10),
        .stopRetract, .startRetract]).retractHoldTime = 0 := by
  decide

/-- Claim C6, amended: `stopRetract` freezes progress without touching the
held-time, but the held-time resets to zero on *every* `startRetract`
activation (game.js:2403) and on every non-retracting `update` tick
(game.js:2435) — not only when fully docked; re-pressing retract within an
episode therefore restarts acceleration from zero rather than preserving the
accumulated held-time. -/
theorem c6_amended_holdTime (s : Drill) (dt : ℚ) :
    ((s.stopRetract).retractHoldTime = s.retractHoldTime) ∧
    (1 < s.pipePoints.length → (s.startRetract).retractHoldTime = 0) ∧
    (s.isRetracting = false → (s.update dt).retractHoldTime = 0) := by
  refine ⟨?_, ?_, ?_⟩
  · unfold Drill.stopRetract
    split
    · rfl
    · simp
  · intro hlen
    unfold Drill.startRetract
    rw [if_neg (by omega)]
    simp
  · exact fun h => Drill.update_retractHoldTime_of_not_retracting s dt h

unseal Rat.add Rat.mul Rat.sub Rat.inv in
/-- Witness for C6 (amended) at concrete states: a mid-retraction state with
two pipe points, and the freshly docked drill. -/
theorem c6_witness :
    ((retractTestState.stopRetract).retractHoldTime = retractTestState.retractHoldTime) ∧
    (1 < retractTestState.pipePoints.length ∧
      (retractTestState.startRetract).retractHoldTime = 0) ∧
    (gameDrill.isRetracting = false ∧ (gameDrill.update (1/10)).retractHoldTime = 0) :=
  ⟨(c6_amended_holdTime retractTestState (1/10)).1,
   ⟨by decide, (c6_amended_holdTime retractTestState (1/10)).2.1 (by decide)⟩,
   ⟨rfl, (c6_amended_holdTime gameDrill (1/10)).2.2 rfl⟩⟩

/-- Claim C8: a drill that is docked at the well and has never left it —
current tile equal to the entry tile, empty tile trail, no pipe beyond the
single anchor point, not retracting and with no destination — cannot collide
with anything: `collidesWithHead` returns false for every query point and
radius (game.js:2756-2759 via `refreshDockedState`, game.js:2780). -/
theorem c8_docked_no_collision (s : Drill) (ex ey er : ℚ)
    (hret : s.isRetracting = false) (hdest : s.destinationTile = none)
    (hx : s.currentTileX = s.entryTile.1) (hy : s.currentTileY = s.entryTile.2)
    (htrail : s.tileTrail = []) (hpipe : s.pipePoints.length ≤ 1) :
    s.collidesWithHead ex ey er = false := by
  unfold Drill.collidesWithHead Drill.refreshDockedState Drill.dockedNow
  simp [hret, hdest, hx, hy, htrail, hpipe]

unseal Rat.add Rat.mul Rat.sub Rat.inv in
/-- Witness for C8: the freshly constructed game drill, queried at an
arbitrary point. -/
theorem c8_witness :
    (gameDrill.isRetracting = false ∧ gameDrill.destinationTile = none ∧
     gameDrill.currentTileX = gameDrill.entryTile.1 ∧
     gameDrill.currentTileY = gameDrill.entryTile.2 ∧
     gameDrill.tileTrail = [] ∧ gameDrill.pipePoints.length ≤ 1) ∧
    gameDrill.collidesWithHead 500 150 25 = false :=
  ⟨⟨rfl, rfl, by decide, by decide, rfl, by decide⟩,
   c8_docked_no_collision gameDrill 500 150 25 rfl rfl (by decide) (by decide) rfl
     (by decide)⟩

/-- Claim C10: for every non-docked drill state, `collidesWithHead` returns
false whenever the queried position maps to a tile outside the grid or to a
tile row different from the drill's current tile row, regardless of geometric
overlap (game.js:2761-2764). -/
theorem c10_row_gate (s : Drill) (ex ey er : ℚ)
    (hnd : s.dockedNow = false)
    (h : s.level.pixelToTile ex ey = none ∨
      ∃ t, s.level.pixelToTile ex ey = some t ∧ t.2 ≠ s.currentTileY) :
    s.collidesWithHead ex ey er = false := by
  unfold Drill.collidesWithHead Drill.refreshDockedState
  rcases h with h | ⟨t, h, hrow⟩
  · simp [hnd, h]
  · simp [hnd, h, hrow]

/-- Claim C1: with the drill not retracting and no destination tile set, a
requested direction `(dx, dy)` is accepted iff (a) it is non-zero, (b) it is
not the exact reverse of the last committed forward direction unless that
direction is the zero vector, (c) the adjacent target tile is in-bounds and
passable (Open or Pellet), and (d) the target tile is not in `tileTrail`;
acceptance sets `destinationTile` to the target and records `(dx, dy)` as the
new forward direction, rejection returns false and leaves the state unchanged
(`Drill.trySetDirection`, game.js:2667; total function, never throws). -/
theorem c1_direction_acceptance (s : Drill) (dx dy : ℤ)
    (hret : s.isRetracting = false) (hdest : s.destinationTile = none) :
    ((s.trySetDirection dx dy).1 = true ↔
      (¬ (dx = 0 ∧ dy = 0) ∧
       ¬ (s.lastForwardX = -dx ∧ s.lastForwardY = -dy ∧
          (s.lastForwardX ≠ 0 ∨ s.lastForwardY ≠ 0)) ∧
       (∃ tile, s.level.getTile (s.currentTileX + dx) (s.currentTileY + dy) = some tile ∧
          Level.isTunnelTile tile = true) ∧
       (∀ node ∈ s.tileTrail,
          ¬ (node.1 = s.currentTileX + dx ∧ node.2 = s.currentTileY + dy)))) ∧
    ((s.trySetDirection dx dy).1 = true →
      ((s.trySetDirection dx dy).2.destinationTile =
          some (s.currentTileX + dx, s.currentTileY + dy) ∧
       (s.trySetDirection dx dy).2.lastForwardX = dx ∧
       (s.trySetDirection dx dy).2.lastForwardY = dy)) ∧
    ((s.trySetDirection dx dy).1 = false → (s.trySetDirection dx dy).2 = s) := by
  unfold Drill.trySetDirection
  by_cases h0 : dx = 0 ∧ dy = 0
  · rw [if_pos h0]
    exact ⟨by simp [h0], by simp, by simp⟩
  · rw [if_neg h0, if_neg (show ¬ ¬ s.destinationTile = none by simp [hdest])]
    by_cases hrev : s.lastForwardX = -dx ∧ s.lastForwardY = -dy ∧
        (s.lastForwardX ≠ 0 ∨ s.lastForwardY ≠ 0)
    · rw [if_pos hrev]
      refine ⟨?_, by simp, by simp⟩
      simp only [show ((false, s).1 = true) = False by simp, false_iff]
      rintro ⟨-, h2, -⟩
      exact h2 hrev
    · rw [if_neg hrev]
      dsimp only
      rcases hg : s.level.getTile (s.currentTileX + dx) (s.currentTileY + dy) with _ | tile
      · dsimp only
        refine ⟨?_, by simp, by simp⟩
        simp only [show ((false, s).1 = true) = False by simp, false_iff]
        rintro ⟨-, -, ⟨tile, htile, -⟩, -⟩
        simp at htile
      · dsimp only
        by_cases htun : Level.isTunnelTile tile = true
        · rw [if_neg (by simp [htun])]
          by_cases htrail :
              (s.tileTrail.any fun node =>
                node.1 = s.currentTileX + dx ∧ node.2 = s.currentTileY + dy) = true
          · rw [if_pos htrail]
            refine ⟨?_, by simp, by simp⟩
            simp only [show ((false, s).1 = true) = False by simp, false_iff]
            rintro ⟨-, -, -, h4⟩
            rw [List.any_eq_true] at htrail
            obtain ⟨node, hmem, hnode⟩ := htrail
            exact h4 node hmem (by simpa using hnode)
          · rw [if_neg htrail]
            refine ⟨?_, ?_, by simp⟩
            · simp only [show ((true, _).1 = true) = True by simp, true_iff]
              refine ⟨h0, hrev, ⟨tile, rfl, htun⟩, ?_⟩
              intro node hmem hnode
              exact htrail (List.any_eq_true.mpr ⟨node, hmem, by simpa using hnode⟩)
            · intro
              refine ⟨?_, rfl, rfl⟩
              simp
        · rw [if_pos (by simp [htun])]
          refine ⟨?_, by simp, by simp⟩
          simp only [show ((false, s).1 = true) = False by simp, false_iff]
          rintro ⟨-, -, ⟨tile2, htile2, htun2⟩, -⟩
          injection htile2 with he
          subst he
          exact htun htun2

unseal Rat.add Rat.mul Rat.sub Rat.inv in
/-- Witness for C1: from the freshly docked game drill (no destination), the
request "right" is accepted toward tile (16, 1), while the request "up" is
rejected (tile (15, 0) is a wall) leaving the state unchanged. -/
theorem c1_witness :
    gameDrill.isRetracting = false ∧ gameDrill.destinationTile = none ∧
    ((gameDrill.trySetDirection 1 0).1 = true ↔
      (¬ ((1:ℤ) = 0 ∧ (0:ℤ) = 0) ∧
       ¬ (gameDrill.lastForwardX = -1 ∧ gameDrill.lastForwardY = -0 ∧
          (gameDrill.lastForwardX ≠ 0 ∨ gameDrill.lastForwardY ≠ 0)) ∧
       (∃ tile, gameDrill.level.getTile (gameDrill.currentTileX + 1)
            (gameDrill.currentTileY + 0) = some tile ∧
          Level.isTunnelTile tile = true) ∧
       (∀ node ∈ gameDrill.tileTrail,
          ¬ (node.1 = gameDrill.currentTileX + 1 ∧
             node.2 = gameDrill.currentTileY + 0)))) ∧
    (gameDrill.trySetDirection 1 0).1 = true ∧
    (gameDrill.trySetDirection 1 0).2.destinationTile = some (16, 1) ∧
    (gameDrill.trySetDirection 0 (-1)).1 = false ∧
    (gameDrill.trySetDirection 0 (-1)).2 = gameDrill :=
  ⟨rfl, rfl,
   (c1_direction_acceptance gameDrill 1 0 rfl rfl).1,
   by decide,
   by decide,
   by decide,
   (c1_direction_acceptance gameDrill 0 (-1) rfl rfl).2.2 (by decide)⟩

unseal Rat.add Rat.mul Rat.sub Rat.inv in
/-- Counterexample to claim C3 as stated: a straight two-tile run downward
from the well. After the first 0.1s tick the pipe is
`[(496,96), (496,112), (496,116)]` — terminal committed segment
`(496,96) → (496,112)`, direction `(0,1)`. The next tick completes a move
into a new tile in that same direction `(0,1)` (straight continuation), yet
`trackPipeProgress` grows the pipe from 3 to 4 points — it appends a
waypoint on *every* tile entry, instead of merely updating the last point as
the claim states. -/
theorem c3_counterexample :
    (runOps gameDrill [.setDirection 0 1, .update (1/10)]).pipePoints =
      [⟨496, 96⟩, ⟨496, 112⟩, ⟨496, 116⟩] ∧
    (runOps gameDrill [.setDirection 0 1, .update (1/10)]).dirY = 1 ∧
    (runOps gameDrill [.setDirection 0 1, .update (1/10), .update (1/10)]).pipePoints =
      [⟨496, 96⟩, ⟨496, 112⟩, ⟨496, 144⟩, ⟨496, 136⟩] ∧
    (runOps gameDrill [.setDirection 0 1, .update (1/10), .update (1/10)]).pipePoints.length =
      (runOps gameDrill [.setDirection 0 1, .update (1/10)]).pipePoints.length + 1 := by
  decide

/-- Claim C3, amended: whenever the head has entered a tile different from
the recorded current tile (a completed move into a new tile) and the pipe
already has at least two points, `trackPipeProgress` *always* rewrites the
pipe's last point to the entered tile's exact centre and appends the head
position as a new final point — one new waypoint per tile entered, whether or
not the direction matches the terminal segment; the last point is replaced
(not appended) only while the head stays inside the current tile
(game.js:2523-2560). -/
theorem c3_amended_append_per_tile (s : Drill) (t : ℤ × ℤ)
    (h : s.level.pixelToTile s.x s.y = some t)
    (hne : ¬ (t.1 = s.currentTileX ∧ t.2 = s.currentTileY))
    (hlen : 2 ≤ s.pipePoints.length) :
    s.trackPipeProgress.pipePoints =
      s.pipePoints.dropLast ++ [s.level.tileToPixelCenter t.1 t.2, ⟨s.x, s.y⟩] ∧
    s.trackPipeProgress.pipePoints.length = s.pipePoints.length + 1 := by
  unfold Drill.trackPipeProgress
  rw [h]
  dsimp only
  rw [if_neg hne]
  rcases hp : s.pipePoints with _ | ⟨a, _ | ⟨b, rest⟩⟩
  · rw [hp] at hlen; simp at hlen
  · rw [hp] at hlen; simp at hlen
  · constructor
    · simp
    · simp

unseal Rat.add Rat.mul Rat.sub Rat.inv in
/-- Witness for C3 (amended) at the concrete crossing state of the
counterexample's second tick, taken just after `advanceTowardDestination`:
head at `(496, 136)` inside tile `(15, 1)`, recorded current tile `(15, 0)`,
pipe `[(496,96), (496,112), (496,116)]`. -/
theorem c3_witness :
    (crossingTestState.level.pixelToTile crossingTestState.x crossingTestState.y =
      some (15, 1)) ∧
    ¬ ((15:ℤ) = crossingTestState.currentTileX ∧ (1:ℤ) = crossingTestState.currentTileY) ∧
    2 ≤ crossingTestState.pipePoints.length ∧
    crossingTestState.trackPipeProgress.pipePoints =
      crossingTestState.pipePoints.dropLast ++
        [crossingTestState.level.tileToPixelCenter 15 1,
         ⟨crossingTestState.x, crossingTestState.y⟩] ∧
    crossingTestState.trackPipeProgress.pipePoints.length =
      crossingTestState.pipePoints.length + 1 :=
  ⟨by decide, by decide, by decide,
   (c3_amended_append_per_tile crossingTestState (15, 1) (by decide) (by decide)
     (by decide)).1,
   (c3_amended_append_per_tile crossingTestState (15, 1) (by decide) (by decide)
     (by decide)).2⟩

unseal Rat.add Rat.mul Rat.sub Rat.inv in
/-- Claim C2 fails on the code (and on the repository's own README, which
promises the pipe "keeps tubes orthogonal"): from the freshly constructed
drill — hanging at the well `(496, 96)`, `1.5` tiles above the entry tile
centre `(496, 144)` — the very first input "right" is accepted by
`trySetDirection` (tile `(16, 1)` is passable, no reversal, empty trail), and
`advanceTowardDestination` then snaps `y` to the entry row centre `144` while
stepping `x` by `2`; `updateHeadPipePoint` records the head, leaving the pipe
`[(496, 96), (498, 144)]` — a segment differing in both coordinates. So a
state with a diagonal pipe segment is reachable with two operations. -/
theorem c2_diagonal_segment_reachable :
    axisAlignedPipe gameDrill.pipePoints = true ∧
    (runOps gameDrill [.setDirection 1 0, .update (1/100)]).pipePoints =
      [⟨496, 96⟩, ⟨498, 144⟩] ∧
    axisAlignedPipe
      (runOps gameDrill [.setDirection 1 0, .update (1/100)]).pipePoints = false := by
  decide

/-- Claim C7: the interaction resolver checks head contact before pipe
contact for each active enemy (`PlayState.handleEnemyInteractions`,
game.js:4016): a non-hazardous enemy overlapping the drill head — whether or
not it simultaneously touches the pipe — is destroyed (10 points awarded,
respawn scheduled via `handleDestroyed`) with no life loss from it, and
processing continues with the remaining enemies; a hazardous (type "02")
enemy overlapping the head yields a life-lost report and stops processing all
further enemies for the tick (they are returned untouched). -/
theorem c7_head_before_pipe (d : Drill) (e : EnemyE) (rest : List EnemyE)
    (delays : List ℚ) (hact : e.active = true)
    (hhit : d.collidesWithHead e.x e.y e.radius = true) :
    (e.type = "02" → resolveEnemies d delays (e :: rest) = (true, 0, e :: rest)) ∧
    (¬ e.type = "02" →
      (resolveEnemies d delays (e :: rest) =
        ((resolveEnemies d delays.tail rest).1,
         (resolveEnemies d delays.tail rest).2.1 + 10,
         handleDestroyed e (delays.headD 5) :: (resolveEnemies d delays.tail rest).2.2) ∧
       (handleDestroyed e (delays.headD 5)).active = false ∧
       (handleDestroyed e (delays.headD 5)).respawnTimer = delays.headD 5)) := by
  constructor
  · intro h02
    simp [resolveEnemies, hact, hhit, h02]
  · intro h02
    refine ⟨?_, rfl, rfl⟩
    simp [resolveEnemies, hact, hhit, h02]

unseal Rat.add Rat.mul Rat.sub Rat.inv in
/-- Witness for C7: a drill one tile into the maze with a two-point pipe; a
hazardous worm sitting exactly on the head (and on the pipe) stops the tick
with a life-lost report leaving the rest untouched, while a destructible
spider in the same spot — also touching the pipe — is destroyed for 10
points and processing continues to the worm behind it. -/
theorem c7_witness :
    (wormEnemy.active = true ∧
     c7Drill.collidesWithHead wormEnemy.x wormEnemy.y wormEnemy.radius = true ∧
     enemyHitsPipe c7Drill.pipePoints wormEnemy = true ∧
     resolveEnemies c7Drill [6] [wormEnemy, spiderEnemy] =
       (true, 0, [wormEnemy, spiderEnemy])) ∧
    (spiderEnemy.active = true ∧
     c7Drill.collidesWithHead spiderEnemy.x spiderEnemy.y spiderEnemy.radius = true ∧
     enemyHitsPipe c7Drill.pipePoints spiderEnemy = true ∧
     resolveEnemies c7Drill [6] [spiderEnemy, wormEnemy] =
       (true, 10, [handleDestroyed spiderEnemy 6, wormEnemy])) :=
  ⟨⟨rfl, by decide, by decide,
    (c7_head_before_pipe c7Drill wormEnemy [spiderEnemy] [6] rfl (by decide)).1 rfl⟩,
   ⟨rfl, by decide, by decide, by
    rw [((c7_head_before_pipe c7Drill spiderEnemy [wormEnemy] [6] rfl
      (by decide)).2 (by decide)).1]
    decide⟩⟩

/-- Claim C9: under the documented invariant `pelletCount = countPellets`,
`removePelletAtTile` (game.js:2049) mutates the cell from Pellet to Open and
decrements `pelletCount` if and only if the cell held a Pellet; otherwise —
including out-of-bounds coordinates — it is a no-op returning false. A second
call on the same tile returns false and leaves the count at exactly one less
than the original, and the count stays nonnegative. -/
theorem c9_pellet_idempotent (l : Level) (tx ty : ℤ)
    (hinv : l.pelletCount = l.countPellets) :
    (((l.removePelletAtTile tx ty).1 = true) ↔ l.getTile tx ty = some 'O') ∧
    ((l.removePelletAtTile tx ty).1 = false → (l.removePelletAtTile tx ty).2 = l) ∧
    ((l.removePelletAtTile tx ty).1 = true →
      ((l.removePelletAtTile tx ty).2.getTile tx ty = some '.' ∧
       (l.removePelletAtTile tx ty).2.pelletCount = l.pelletCount - 1 ∧
       ((l.removePelletAtTile tx ty).2.removePelletAtTile tx ty).1 = false ∧
       ((l.removePelletAtTile tx ty).2.removePelletAtTile tx ty).2.pelletCount =
         l.pelletCount - 1)) ∧
    0 ≤ (l.removePelletAtTile tx ty).2.pelletCount := by
  have hnn : 0 ≤ l.pelletCount := by
    rw [hinv]; exact Int.natCast_nonneg _
  unfold Level.removePelletAtTile Level.getTile
  by_cases hb : ty < 0 ∨ ty ≥ l.height ∨ tx < 0 ∨ tx ≥ l.width
  · rw [if_pos hb, if_pos hb]
    exact ⟨by simp, fun _ => rfl, by simp, hnn⟩
  · rw [if_neg hb, if_neg hb]
    push_neg at hb
    obtain ⟨hty0, htyh, htx0, htxw⟩ := hb
    by_cases hC : Level.rawAt l.tiles ty tx = some 'O'
    · rw [if_pos hC]
      obtain ⟨row, hrow, hcell⟩ :
          ∃ row, l.tiles.get? ty.toNat = some row ∧ row.get? tx.toNat = some 'O' := by
        unfold Level.rawAt at hC
        rw [if_pos ⟨hty0, htx0⟩] at hC
        exact Option.bind_eq_some.mp hC
      have hlen : ty.toNat < l.tiles.length := (List.get?_eq_some.mp hrow).1
      have hrlen : tx.toNat < row.length := (List.get?_eq_some.mp hcell).1
      have hraw' :
          Level.rawAt
            (l.tiles.set ty.toNat (((l.tiles.get? ty.toNat).getD []).set tx.toNat '.'))
            ty tx = some '.' := by
        unfold Level.rawAt
        rw [if_pos ⟨hty0, htx0⟩, hrow]
        simp only [Option.getD_some]
        rw [List.get?_set_eq_of_lt _ hlen]
        simp only [Option.some_bind]
        exact List.get?_set_eq_of_lt _ hrlen
      have hone : (1:ℤ) ≤ l.pelletCount := by
        rw [hinv]
        unfold Level.countPellets
        have hmem : 'O' ∈ row := List.get?_mem hcell
        have hcount : 1 ≤ row.count 'O' := List.count_pos_iff.mpr hmem
        have hsum : row.count 'O' ≤ (l.tiles.map fun r => r.count 'O').sum :=
          List.single_le_sum (fun _ _ => Nat.zero_le _) _
            (List.mem_map_of_mem _ (List.get?_mem hrow))
        exact_mod_cast le_trans hcount hsum
      refine ⟨by simp [hC], by simp, fun _ => ?_, ?_⟩
      · dsimp only
        refine ⟨?_, ?_, ?_⟩
        · rw [if_neg (by omega)]
          exact hraw'
        · dsimp only
          omega
        · rw [if_neg (by omega), if_neg (by rw [hraw']; decide)]
          dsimp only
          exact ⟨rfl, by omega⟩
      · dsimp only
        exact le_max_left _ _
    · rw [if_neg hC]
      refine ⟨by simp [hC], fun _ => rfl, by simp, hnn⟩

unseal Rat.add Rat.mul Rat.sub Rat.inv in
/-- Witness for C9: collecting the pellet at tile `(2, 1)` of the real level
(the invariant holds there: `pelletCount = 21 = countPellets`). -/
theorem c9_witness :
    gameLevel.pelletCount = gameLevel.countPellets ∧
    gameLevel.getTile 2 1 = some 'O' ∧
    (gameLevel.removePelletAtTile 2 1).1 = true ∧
    (gameLevel.removePelletAtTile 2 1).2.getTile 2 1 = some '.' ∧
    (gameLevel.removePelletAtTile 2 1).2.pelletCount = gameLevel.pelletCount - 1 ∧
    ((gameLevel.removePelletAtTile 2 1).2.removePelletAtTile 2 1).1 = false ∧
    ((gameLevel.removePelletAtTile 2 1).2.removePelletAtTile 2 1).2.pelletCount =
      gameLevel.pelletCount - 1 :=
  ⟨by decide, by decide,
   ((c9_pellet_idempotent gameLevel 2 1 (by decide)).1).mpr (by decide),
   ((c9_pellet_idempotent gameLevel 2 1 (by decide)).2.2.1 (by decide)).1,
   ((c9_pellet_idempotent gameLevel 2 1 (by decide)).2.2.1 (by decide)).2.1,
   ((c9_pellet_idempotent gameLevel 2 1 (by decide)).2.2.1 (by decide)).2.2.1,
   ((c9_pellet_idempotent gameLevel 2 1 (by decide)).2.2.1 (by decide)).2.2.2⟩

unseal Rat.add Rat.mul Rat.sub Rat.inv in
/-- Witness for C10: a mid-retraction (hence non-docked) state whose recorded
current tile row is 1; an enemy placed exactly on the drill head (geometric
overlap, distance 0) still reports no collision because the head pixel lies
in tile row 0; a far-out-of-grid query also reports none. -/
theorem c10_witness :
    retractTestState.dockedNow = false ∧
    (∃ t, retractTestState.level.pixelToTile 496 112 = some t ∧
      t.2 ≠ retractTestState.currentTileY) ∧
    retractTestState.collidesWithHead 496 112 100 = false ∧
    retractTestState.level.pixelToTile (-5) (-5) = none ∧
    retractTestState.collidesWithHead (-5) (-5) 100 = false :=
  ⟨by decide, ⟨(15, 0), by decide, by decide⟩,
   c10_row_gate retractTestState 496 112 100 (by decide)
     (Or.inr ⟨(15, 0), by decide, by decide⟩),
   by decide,
   c10_row_gate retractTestState (-5) (-5) 100 (by decide) (Or.inl (by decide))⟩

end SatsMiner
